import Mathlib

/-!
Shallow embedding of the POSIX threading layer in
`src/3rdparty/wxwidgets3.0/src/unix/threadpsx.cpp`: wxMutexInternal,
wxConditionInternal, wxSemaphoreInternal, wxThreadInternal / wxThread and
wxThreadModule.  Machine integers that are `unsigned`/`size_t` in the source
are modelled as `Nat` (so `0 ≤ count` is automatic); thread exit codes
(`void*` in the source) are modelled as `Int`, with the sentinel
`EXITCODE_CANCELLED = (ExitCode)-1` becoming `-1`.  Calls into the pthread
library are modelled by small sequential functions whose doc comments state
the POSIX semantics they encode; where a pthread call's errno is what the
wx code switches on, the wx function is additionally stated over an
arbitrary errno so every `switch` arm of the source is covered.
-/

/-- Result codes of `wxMutex` operations (`wxMutexError` in the source):
`wxMUTEX_NO_ERROR`, `wxMUTEX_DEAD_LOCK`, `wxMUTEX_BUSY`, `wxMUTEX_UNLOCKED`
(unlock by non-owner), `wxMUTEX_TIMEOUT`, `wxMUTEX_MISC_ERROR`. -/
inductive WxMutexError
  | noError
  | deadLock
  | busy
  | unlocked
  | timeout
  | miscError
deriving Repr, DecidableEq

/-- Result codes of `wxCondition` operations (`wxCondError`). -/
inductive WxCondError
  | noError
  | timeout
  | miscError
deriving Repr, DecidableEq

/-- Result codes of `wxSemaphore` operations (`wxSemaError`). -/
inductive WxSemaError
  | noError
  | busy
  | timeout
  | miscError
  | overflow
deriving Repr, DecidableEq

/-- Result codes of `wxThread` operations (`wxThreadError`); only the values
used by this file's source are modelled. -/
inductive WxThreadError
  | noError
  | noResource
  | threadRunning
  | notRunning
  | miscError
deriving Repr, DecidableEq

/-- The lifecycle states of a thread (`wxThreadState` enum at the top of the
source file). -/
inductive WxThreadState
  | stateNew
  | stateRunning
  | statePaused
  | stateExited
deriving Repr, DecidableEq

/-- Thread kind (`wxThreadKind`): joinable or detached. -/
inductive WxThreadKind
  | joinable
  | detached
deriving Repr, DecidableEq

/-- Mutex kind (`wxMutexType`): `wxMUTEX_DEFAULT` or `wxMUTEX_RECURSIVE`. -/
inductive WxMutexType
  | mutexDefault
  | mutexRecursive
deriving Repr, DecidableEq

/-- The errno values the source's switch statements distinguish; `other`
stands for every remaining nonzero errno (the `default:` arms). -/
inductive Errno
  | ok
  | eDEADLK
  | eINVAL
  | eTIMEDOUT
  | eBUSY
  | ePERM
  | other
deriving Repr, DecidableEq

/-- State of a `wxMutexInternal` together with the native `pthread_mutex_t`
it wraps.  `owningThread` is the source's `m_owningThread` (`0` = no tracked
owner; the source assumes `0` is not a valid thread id).  `depth` and
`holder` model the native mutex: `depth = 0` means unlocked, `depth > 0`
means natively locked `depth` times by thread `holder` (only a recursive
native mutex ever reaches `depth > 1`). -/
structure WxMutexInternal where
  mtype : WxMutexType
  owningThread : Nat
  depth : Nat
  holder : Nat
deriving Repr, DecidableEq

/-- `wxMutexInternal::wxMutexInternal`: `m_owningThread = 0`, native mutex
initialized unlocked. -/
def mkWxMutex (t : WxMutexType) : WxMutexInternal :=
  { mtype := t, owningThread := 0, depth := 0, holder := 0 }

/-- Outcome of a possibly-blocking native call: either it returns an errno
or (in this sequential single-caller model, where nobody else will ever
unlock) it blocks forever. -/
inductive NativeRes
  | ret (e : Errno)
  | blocks
deriving Repr, DecidableEq

/-- Sequential model of `pthread_mutex_lock`: locking a free mutex
succeeds; relocking a recursive mutex already held by the caller succeeds
and bumps the depth; locking a default mutex that is already locked blocks
(in this model, forever, since no other thread will unlock it). -/
def pthreadMutexLock (m : WxMutexInternal) (cur : Nat) : WxMutexInternal × NativeRes :=
  if m.depth = 0 then ({ m with depth := 1, holder := cur }, .ret .ok)
  else if m.mtype = .mutexRecursive ∧ m.holder = cur then
    ({ m with depth := m.depth + 1 }, .ret .ok)
  else (m, .blocks)

/-- Sequential model of `pthread_mutex_trylock`: `0` on a free mutex (or a
recursive one held by the caller), `EBUSY` otherwise. -/
def pthreadMutexTryLock (m : WxMutexInternal) (cur : Nat) : WxMutexInternal × Errno :=
  if m.depth = 0 then ({ m with depth := 1, holder := cur }, .ok)
  else if m.mtype = .mutexRecursive ∧ m.holder = cur then
    ({ m with depth := m.depth + 1 }, .ok)
  else (m, .eBUSY)

/-- Sequential model of `pthread_mutex_timedlock`: succeeds on a free mutex
(or a recursive one held by the caller); otherwise, since no other thread
will unlock, the deadline expires and it returns `ETIMEDOUT`. -/
def pthreadMutexTimedLock (m : WxMutexInternal) (cur : Nat) : WxMutexInternal × Errno :=
  if m.depth = 0 then ({ m with depth := 1, holder := cur }, .ok)
  else if m.mtype = .mutexRecursive ∧ m.holder = cur then
    ({ m with depth := m.depth + 1 }, .ok)
  else (m, .eTIMEDOUT)

/-- Sequential model of `pthread_mutex_unlock`: unlocking a mutex the
caller holds natively decrements the depth and returns `0`; unlocking a
mutex the caller does not hold returns `EPERM` (the errno the source's
`Unlock` handles for that case). -/
def pthreadMutexUnlockNative (m : WxMutexInternal) (cur : Nat) : WxMutexInternal × Errno :=
  if 0 < m.depth ∧ m.holder = cur then ({ m with depth := m.depth - 1 }, .ok)
  else (m, .ePERM)

/-- `wxMutexInternal::HandleLockResult(err)`: maps the errno of a
`pthread_mutex_[timed]lock` call to a `wxMutexError`, recording the caller
(`wxThread::GetCurrentId()`, here `cur`) as `m_owningThread` on success if
the mutex is of the default kind. -/
def handleLockResult (m : WxMutexInternal) (cur : Nat) (err : Errno) :
    WxMutexInternal × WxMutexError :=
  match err with
  | .eDEADLK => (m, .deadLock)
  | .eINVAL => (m, .miscError)
  | .eTIMEDOUT => (m, .timeout)
  | .ok =>
      (if m.mtype = .mutexDefault then { m with owningThread := cur } else m, .noError)
  | _ => (m, .miscError)

/-- Outcome of `wxMutexInternal::Lock()`: either it returns an error code
or the underlying native lock blocks. -/
inductive LockOutcome
  | ret (e : WxMutexError)
  | blocks
deriving Repr, DecidableEq

/-- `wxMutexInternal::Lock()`: if the mutex is of the default kind and the
tracked owner is the calling thread, return `wxMUTEX_DEAD_LOCK` without
touching the native mutex; otherwise call `pthread_mutex_lock` and map its
result through `HandleLockResult`. -/
def wxMutexLock (m : WxMutexInternal) (cur : Nat) : WxMutexInternal × LockOutcome :=
  let native :=
    match pthreadMutexLock m cur with
    | (m1, .ret err) =>
        let p := handleLockResult m1 cur err
        (p.1, LockOutcome.ret p.2)
    | (m1, .blocks) => (m1, LockOutcome.blocks)
  if m.mtype = .mutexDefault ∧ m.owningThread ≠ 0 then
    if m.owningThread = cur then (m, .ret .deadLock) else native
  else native

/-- `wxMutexInternal::Lock(ms)` (the `HAVE_PTHREAD_MUTEX_TIMEDLOCK` branch):
compute a deadline and call `pthread_mutex_timedlock`, mapping the result
through `HandleLockResult`.  The deadline arithmetic does not affect the
state, so `ms` is not consumed by the sequential model. -/
def wxMutexLockTimeout (m : WxMutexInternal) (cur : Nat) (_ms : Nat) :
    WxMutexInternal × WxMutexError :=
  let p := pthreadMutexTimedLock m cur
  handleLockResult p.1 cur p.2

/-- `wxMutexInternal::TryLock()`: call `pthread_mutex_trylock` and switch
on its errno (`EBUSY` → busy, `EINVAL` → misc, `0` → success recording the
owner for default-kind mutexes, anything else → misc). -/
def wxMutexTryLock (m : WxMutexInternal) (cur : Nat) : WxMutexInternal × WxMutexError :=
  let p := pthreadMutexTryLock m cur
  match p.2 with
  | .eBUSY => (p.1, .busy)
  | .eINVAL => (p.1, .miscError)
  | .ok =>
      (if p.1.mtype = .mutexDefault then { p.1 with owningThread := cur } else p.1, .noError)
  | _ => (p.1, .miscError)

/-- The errno-to-result mapping of `wxMutexInternal::Unlock()`'s switch:
`EPERM` → `wxMUTEX_UNLOCKED` (not owned), `EINVAL` → misc, `0` → success,
anything else → misc. -/
def unlockErrnoMap : Errno → WxMutexError
  | .ePERM => .unlocked
  | .eINVAL => .miscError
  | .ok => .noError
  | _ => .miscError

/-- `wxMutexInternal::Unlock()` stated over an arbitrary errno returned by
`pthread_mutex_unlock`: the first statement of the source function sets
`m_owningThread = 0`, before the native call and hence before every return
path of the switch. -/
def wxMutexUnlockErr (m : WxMutexInternal) (err : Errno) : WxMutexInternal × WxMutexError :=
  let m1 := { m with owningThread := 0 }
  (m1, unlockErrnoMap err)

/-- `wxMutexInternal::Unlock()` composed with the sequential native unlock
model. -/
def wxMutexUnlock (m : WxMutexInternal) (cur : Nat) : WxMutexInternal × WxMutexError :=
  let m1 := { m with owningThread := 0 }
  let p := pthreadMutexUnlockNative m1 cur
  (p.1, unlockErrnoMap p.2)

/-- One operation of a mutex history; `cur` is the calling thread's id. -/
inductive MutexOp
  | lockOp (cur : Nat)
  | lockTimeoutOp (cur : Nat) (ms : Nat)
  | tryLockOp (cur : Nat)
  | unlockOp (cur : Nat)
deriving Repr, DecidableEq

/-- The state reached after one mutex operation. -/
def mutexStep (m : WxMutexInternal) : MutexOp → WxMutexInternal
  | .lockOp cur => (wxMutexLock m cur).1
  | .lockTimeoutOp cur ms => (wxMutexLockTimeout m cur ms).1
  | .tryLockOp cur => (wxMutexTryLock m cur).1
  | .unlockOp cur => (wxMutexUnlock m cur).1

/-- The state reached after a sequence of mutex operations. -/
def mutexRun (m : WxMutexInternal) (ops : List MutexOp) : WxMutexInternal :=
  ops.foldl mutexStep m

/-- The owner-tracking invariant: the tracked owner is set only for a
default-kind mutex and only while the native mutex is locked. -/
def mutexInv (m : WxMutexInternal) : Prop :=
  m.owningThread ≠ 0 → m.mtype = .mutexDefault ∧ 0 < m.depth

instance (m : WxMutexInternal) : Decidable (mutexInv m) := by
  unfold mutexInv
  infer_instance

/-- State of a `wxSemaphoreInternal`: `m_count` and `m_maxcount` are
`size_t` in the source, and `m_isOk`.  The owned mutex and condition are
represented only by whether their construction succeeded, which is all the
semaphore code consults. -/
structure WxSemaphoreInternal where
  count : Nat
  maxcount : Nat
  isOk : Bool
deriving Repr, DecidableEq

/-- `wxSemaphoreInternal::wxSemaphoreInternal(initialcount, maxcount)`:
if the argument pair is invalid (`initialcount < 0 || maxcount < 0`, or
`maxcount > 0 && initialcount > maxcount`) the source sets `m_isOk = false`
and never assigns `m_count`/`m_maxcount`, so those members keep their
indeterminate initial contents, modelled by the adversarial parameters
`junkCount`/`junkMax`; otherwise it assigns them from the arguments.  The
final statement `m_isOk = m_mutex.IsOk() && m_cond.IsOk()` overwrites
whatever `m_isOk` held before. -/
def mkWxSemaphore (initialcount maxcount : Int) (mutexOk condOk : Bool)
    (junkCount junkMax : Nat) : WxSemaphoreInternal :=
  if (initialcount < 0 ∨ maxcount < 0) ∨ (0 < maxcount ∧ maxcount < initialcount) then
    { count := junkCount, maxcount := junkMax, isOk := mutexOk && condOk }
  else
    { count := initialcount.toNat, maxcount := maxcount.toNat, isOk := mutexOk && condOk }

/-- The source's validity test on the constructor arguments, as a Bool. -/
def semArgsInvalid (initialcount maxcount : Int) : Bool :=
  (initialcount < 0 || maxcount < 0) || (0 < maxcount && maxcount < initialcount)

/-- Outcome of a semaphore wait: either a `wxSemaError`, or the call is
still blocked inside `m_cond.Wait()` (the supplied environment ran out of
wakeups). -/
inductive SemOutcome
  | ret (e : WxSemaError)
  | stillBlocked
deriving Repr, DecidableEq

/-- `wxSemaphoreInternal::TryWait()`: under the mutex, `m_count == 0` gives
`wxSEMA_BUSY`, otherwise decrement and succeed. -/
def semTryWait (s : WxSemaphoreInternal) : WxSemaphoreInternal × WxSemaError :=
  if s.count = 0 then (s, .busy)
  else ({ s with count := s.count - 1 }, .noError)

/-- `wxSemaphoreInternal::Post()`: under the mutex, if bounded
(`m_maxcount > 0`) and full, return `wxSEMA_OVERFLOW` leaving the count
unchanged; otherwise increment the count and `Signal()` one waiter
(`signalOk` tells whether `pthread_cond_signal` succeeded). -/
def semPost (s : WxSemaphoreInternal) (signalOk : Bool) :
    WxSemaphoreInternal × WxSemaError :=
  if 0 < s.maxcount ∧ s.count = s.maxcount then (s, .overflow)
  else ({ s with count := s.count + 1 },
        if signalOk then .noError else .miscError)

/-- `wxSemaphoreInternal::Wait()`: `while (m_count == 0)` call
`m_cond.Wait()`, failing with `wxSEMA_MISC_ERROR` if the condition wait
fails; then decrement.  Each list element describes one `m_cond.Wait()`
call: the result it returns and the value other threads (running while the
mutex was released inside the wait) left in `m_count` by the time the
mutex is reacquired. -/
def semWaitGo : WxSemaphoreInternal →
    List (WxCondError × Nat) → WxSemaphoreInternal × SemOutcome
  | s, [] =>
    if s.count = 0 then (s, .stillBlocked)
    else ({ s with count := s.count - 1 }, .ret .noError)
  | s, (e, c) :: rest =>
    if s.count = 0 then
      let s1 := { s with count := c }
      if e = .noError then semWaitGo s1 rest else (s1, .ret .miscError)
    else ({ s with count := s.count - 1 }, .ret .noError)

/-- `wxSemaphoreInternal::WaitTimeout(ms)`: `while (m_count == 0)` compute
`remaining = (long)ms - (long)elapsed` and return `wxSEMA_TIMEOUT` if it is
`≤ 0`; otherwise call `m_cond.WaitTimeout(remaining)`, returning
`wxSEMA_TIMEOUT` on its timeout, `wxSEMA_MISC_ERROR` on any other failure,
and re-checking the count on success; finally decrement.  Each list
element is one loop iteration: the elapsed milliseconds sampled at its
start, the condition-wait result, and the count on reacquiring the
mutex. -/
def semWaitTimeoutGo (ms : Nat) : WxSemaphoreInternal →
    List (Nat × WxCondError × Nat) → WxSemaphoreInternal × SemOutcome
  | s, [] =>
    if s.count = 0 then (s, .stillBlocked)
    else ({ s with count := s.count - 1 }, .ret .noError)
  | s, (elapsed, e, c) :: rest =>
    if s.count = 0 then
      if (ms : Int) - (elapsed : Int) ≤ 0 then (s, .ret .timeout)
      else
        let s1 := { s with count := c }
        match e with
        | .timeout => (s1, .ret .timeout)
        | .noError => semWaitTimeoutGo ms s1 rest
        | .miscError => (s1, .ret .miscError)
    else ({ s with count := s.count - 1 }, .ret .noError)

/-- The semaphore bound invariant: when the semaphore is bounded
(`maxcount > 0`) the count never exceeds the bound.  `0 ≤ count` holds by
the `size_t` typing (`Nat` here). -/
def semInv (s : WxSemaphoreInternal) : Prop :=
  0 < s.maxcount → s.count ≤ s.maxcount

instance (s : WxSemaphoreInternal) : Decidable (semInv s) := by
  unfold semInv
  infer_instance

/-- The exit value of a cancelled thread: `EXITCODE_CANCELLED =
(wxThread::ExitCode)-1` in the source. -/
def EXITCODE_CANCELLED : Int := -1

/-- Combined state of a `wxThread` and its `wxThreadInternal`.  `state`,
`prio`, `created`, `cancelled`, `isPaused`, `exitcode`, `shouldBeJoined`
and `internalDetached` are `wxThreadInternal` members (`m_state`,
`m_prio`, `m_created`, `m_cancelled`, `m_isPaused`, `m_exitcode`,
`m_shouldBeJoined`, `m_isDetached`); `isDetached` is `wxThread`'s own
`m_isDetached`.  `semRun` and `semSuspend` are the start-gate and
pause-gate semaphores.  Two instrumentation counters record how many
times `Post()` was invoked on the start-gate (`runPostCalls`) and how
many times `pthread_join` was invoked (`osJoinCalls`); no source decision
reads them. -/
structure ThreadSt where
  state : WxThreadState
  prio : Nat
  created : Bool
  cancelled : Bool
  isPaused : Bool
  exitcode : Int
  shouldBeJoined : Bool
  internalDetached : Bool
  isDetached : Bool
  semRun : WxSemaphoreInternal
  semSuspend : WxSemaphoreInternal
  runPostCalls : Nat
  osJoinCalls : Nat
deriving Repr, DecidableEq

/-- Modelled from the spec: the default constructor arguments of
`wxSemaphore` (used for `m_semRun` and `m_semSuspend`) are declared in
`wx/thread.h`, which is not among the sources; the spec states that the
start-gate and pause-gate are each a `CountingSemaphore(0,1)`. -/
def mkGateSemaphore : WxSemaphoreInternal := mkWxSemaphore 0 1 true true 0 0

/-- `wxThread::wxThread(kind)` plus `wxThreadInternal::wxThreadInternal()`:
state `STATE_NEW`, default priority `wxPRIORITY_DEFAULT = 50`, flags
cleared, exit code `0`, `m_shouldBeJoined = true` and
`m_isDetached = false` (the joinable defaults), and the thread-level
`m_isDetached = (kind == wxTHREAD_DETACHED)`. -/
def mkWxThread (kind : WxThreadKind) : ThreadSt :=
  { state := .stateNew
    prio := 50
    created := false
    cancelled := false
    isPaused := false
    exitcode := 0
    shouldBeJoined := true
    internalDetached := false
    isDetached := kind = .detached
    semRun := mkGateSemaphore
    semSuspend := mkGateSemaphore
    runPostCalls := 0
    osJoinCalls := 0 }

/-- `wxThreadInternal::SignalRun()`: `m_semRun.Post()`, whose result the
source discards. -/
def signalRun (t : ThreadSt) : ThreadSt :=
  { t with semRun := (semPost t.semRun true).1, runPostCalls := t.runPostCalls + 1 }

/-- `wxThreadInternal::Run()`: `SetState(STATE_RUNNING)`, then
`SignalRun()`, then return `wxTHREAD_NO_ERROR`. -/
def internalRun (t : ThreadSt) : ThreadSt × WxThreadError :=
  (signalRun { t with state := .stateRunning }, .noError)

/-- `wxThreadInternal::Create(thread, stackSize)`: refuse with
`wxTHREAD_RUNNING` unless the state is still `STATE_NEW`; for a detached
`wxThread`, configure `PTHREAD_CREATE_DETACHED` and call `Detach()`
(clearing `m_shouldBeJoined`, setting the internal `m_isDetached`); then
`pthread_create` (success given by `osCreateOk`): on failure force the
state to `STATE_EXITED` and return `wxTHREAD_NO_RESOURCE`, on success set
`m_created` and return `wxTHREAD_NO_ERROR`. -/
def internalCreate (t : ThreadSt) (osCreateOk : Bool) : ThreadSt × WxThreadError :=
  if t.state ≠ .stateNew then (t, .threadRunning)
  else
    let t1 :=
      if t.isDetached then { t with shouldBeJoined := false, internalDetached := true }
      else t
    if osCreateOk then ({ t1 with created := true }, .noError)
    else ({ t1 with state := .stateExited }, .noResource)

/-- `wxThread::Run()`: under `m_critsect`, create the OS thread first if it
was not created yet (propagating any creation error), then
`wxThreadInternal::Run()`. -/
def wxThreadRun (t : ThreadSt) (osCreateOk : Bool) : ThreadSt × WxThreadError :=
  if !t.created then
    let p := internalCreate t osCreateOk
    if p.2 ≠ .noError then p else internalRun p.1
  else internalRun t

/-- `wxThreadInternal::Resume()`: if the thread is really paused (blocked
on the pause-gate), post `m_semSuspend` and clear `m_isPaused`; in any
case set the state to `STATE_RUNNING`. -/
def internalResume (t : ThreadSt) : ThreadSt :=
  let t1 :=
    if t.isPaused then
      { t with semSuspend := (semPost t.semSuspend true).1, isPaused := false }
    else t
  { t1 with state := .stateRunning }

/-- `wxThreadInternal::Wait()`: under `m_csJoinFlag`, if `m_shouldBeJoined`
then `pthread_join(GetId(), &m_exitcode)` (whose captured value is
`osRet`, the OS thread's exit value) and clear `m_shouldBeJoined`;
otherwise do nothing.  (The GUI-mutex release/reacquire around this, done
only on the main thread, does not touch the thread's own state.) -/
def internalWait (t : ThreadSt) (osRet : Int) : ThreadSt :=
  if t.shouldBeJoined then
    { t with exitcode := osRet, shouldBeJoined := false,
             osJoinCalls := t.osJoinCalls + 1 }
  else t

/-- `wxThread::Wait(...)`: `m_internal->Wait()` then return
`m_internal->GetExitCode()`. -/
def wxThreadWait (t : ThreadSt) (osRet : Int) : ThreadSt × Int :=
  let t1 := internalWait t osRet
  (t1, t1.exitcode)

/-- `n` successive `wxThread::Wait()` calls on the same thread; the OS
thread's single exit value is `osRet` (consumed by the one call that
really joins). -/
def waitSeq (t : ThreadSt) (osRet : Int) : Nat → ThreadSt
  | 0 => t
  | n + 1 => (wxThreadWait (waitSeq t osRet n) osRet).1

/-- `n` successive `wxThread::Run()` calls on the same thread. -/
def runSeq (t : ThreadSt) (osCreateOk : Bool) : Nat → ThreadSt
  | 0 => t
  | n + 1 => (wxThreadRun (runSeq t osCreateOk n) osCreateOk).1

/-- `wxThread::Delete(rc, ...)`: read `m_isDetached` and (under
`m_critsect`) the state; set the cancellation flag; then switch on the
state read before the flag was set: `STATE_NEW` → `SignalRun()` and fall
through to `STATE_EXITED`'s "nothing to do"; `STATE_PAUSED` →
`m_internal->Resume()` and fall through to the default arm;
default (`STATE_RUNNING`) → if not detached, `m_internal->Wait()` and
store the exit code into `*rc`.  Finally return `wxTHREAD_MISC_ERROR` if
the state had been `STATE_NEW`, else `wxTHREAD_NO_ERROR`.  The second
component of the result is the returned error, the third the value stored
through `rc` (none when the source stores nothing). -/
def wxThreadDelete (t : ThreadSt) (osRet : Int) : ThreadSt × WxThreadError × Option Int :=
  let isDet := t.isDetached
  let state0 := t.state
  let t1 := { t with cancelled := true }
  let joinPart : ThreadSt → ThreadSt × Option Int := fun u =>
    if !isDet then
      let u1 := internalWait u osRet
      (u1, some u1.exitcode)
    else (u, none)
  let p : ThreadSt × Option Int :=
    match state0 with
    | .stateNew => (signalRun t1, none)
    | .stateExited => (t1, none)
    | .statePaused => joinPart (internalResume t1)
    | .stateRunning => joinPart t1
  if state0 = .stateNew then (p.1, .miscError, p.2)
  else (p.1, .noError, p.2)

/-- Result of the thread entry wrapper `wxThreadInternal::PthreadStart`:
the surviving thread object (`none` when the wrapper executed
`delete thread`, i.e. the C++ object was destroyed), the value the OS
thread terminates with, and whether the user's `Entry()` ran. -/
structure PthreadStartRes where
  thread : Option ThreadSt
  retVal : Int
  ranUserCode : Bool
deriving Repr, DecidableEq

/-- `wxThreadInternal::PthreadStart(thread)` from the point where
`m_semRun.Wait()` has returned (the start-gate was posted);
`t` is the thread's state as observed under `m_critsect` there, `userExit`
the value the user's `Entry()` would return.  `dontRunAtAll` is computed
under the lock as `GetState() == STATE_NEW && WasCancelled()`; if it
holds, user code is skipped, the wrapper executes `delete thread`
(unconditionally — the source's own FIXME remarks it may be deleting a
joinable thread) and returns `EXITCODE_CANCELLED`.  Otherwise
`m_exitcode = thread->CallEntry()`, the state becomes `STATE_EXITED`, and
`thread->Exit(m_exitcode)` runs: a detached thread schedules itself for
deletion and destroys itself, a joinable one merely keeps state
`STATE_EXITED`; either way the OS thread terminates with `m_exitcode` via
`pthread_exit`. -/
def pthreadStart (t : ThreadSt) (userExit : Int) : PthreadStartRes :=
  let dontRunAtAll := t.state = .stateNew ∧ t.cancelled = true
  if dontRunAtAll then
    { thread := none, retVal := EXITCODE_CANCELLED, ranUserCode := false }
  else
    let t1 := { t with exitcode := userExit, state := .stateExited }
    if t1.isDetached then { thread := none, retVal := t1.exitcode, ranUserCode := true }
    else { thread := some t1, retVal := t1.exitcode, ranUserCode := true }

/-- State of the process-wide pieces `wxThreadModule` manages:
`gs_nThreadsBeingDeleted`, the registry `gs_allThreads` (as the list of
the registered threads' states, in registry order), whether `gs_mutexGui`
is locked, and liveness of each global object it deletes. -/
structure WxThreadModuleSt where
  nThreadsBeingDeleted : Nat
  allThreads : List ThreadSt
  guiLocked : Bool
  guiMutexAlive : Bool
  allThreadsMutexAlive : Bool
  condAllDeletedAlive : Bool
  deleteMutexAlive : Bool
deriving Repr, DecidableEq

/-- The deletion loop of `wxThreadModule::OnExit`: `count` iterations of
`gs_allThreads[0]->Delete()`.  The only code that removes an entry from
`gs_allThreads` is `wxThread::~wxThread`, and `wxThread::Delete` does not
invoke it for a joinable thread (it at most joins; destroying a joinable
thread's object is the owner's job), so the call returns with the thread
object alive and still registered as the first entry, merely left in the
state `Delete` produced; for a detached thread the self-deletion that
removes the entry runs asynchronously in the dying thread's own context
and is likewise not a synchronous effect of the call (this model covers
the synchronous effect, exact for joinable threads).  The second
component records, in order, the thread state each `Delete()` call was
issued on. -/
def onExitDeleteLoop (osRet : Int) : Nat → List ThreadSt → List ThreadSt × List ThreadSt
  | 0, reg => (reg, [])
  | _ + 1, [] => ([], [])
  | n + 1, t :: rest =>
      let step := onExitDeleteLoop osRet n ((wxThreadDelete t osRet).1 :: rest)
      (step.1, t :: step.2)

/-- Result of `wxThreadModule::OnExit`: final global state, whether the
call blocked on `gs_condAllDeleted`, and the thread states the `Delete()`
calls were issued on. -/
structure OnExitRes where
  final : WxThreadModuleSt
  waitedForPending : Bool
  deleteCalls : List ThreadSt
deriving Repr, DecidableEq

/-- `wxThreadModule::OnExit()`: under `gs_mutexDeleteThread`, if
`gs_nThreadsBeingDeleted > 0` block on `gs_condAllDeleted` (which
`DeleteThread` signals exactly when the counter reaches zero, so the
counter is `0` once the wait returns); read `count = gs_allThreads.GetCount()`
under `gs_mutexAllThreads`; run `count` iterations of
`gs_allThreads[0]->Delete()`; `delete gs_mutexAllThreads`; unlock and
delete `gs_mutexGui`; free the TLS key; `delete gs_condAllDeleted`;
`delete gs_mutexDeleteThread`.  `osRet` is the exit value a join inside a
`Delete()` would capture. -/
def wxThreadModuleOnExit (m : WxThreadModuleSt) (osRet : Int) : OnExitRes :=
  let waited := 0 < m.nThreadsBeingDeleted
  let m1 := if waited then { m with nThreadsBeingDeleted := 0 } else m
  let count := m1.allThreads.length
  let loopRes := onExitDeleteLoop osRet count m1.allThreads
  let m2 := { m1 with allThreads := loopRes.1 }
  let m3 := { m2 with allThreadsMutexAlive := false }
  let m4 := { m3 with guiLocked := false, guiMutexAlive := false }
  let m5 := { m4 with condAllDeletedAlive := false, deleteMutexAlive := false }
  { final := m5, waitedForPending := waited, deleteCalls := loopRes.2 }

/-- Two joinable threads, created but never run, registered at process
shutdown; distinct priorities keep the two objects distinguishable. -/
def c3ThreadA : ThreadSt := { mkWxThread .joinable with created := true }

/-- The second registered joinable thread of the shutdown scenario. -/
def c3ThreadB : ThreadSt := { mkWxThread .joinable with created := true, prio := 60 }

/-- The process-wide state at shutdown for the scenario: no pending
asynchronous deletions, both threads registered, GUI gate held. -/
def c3Module : WxThreadModuleSt :=
  { nThreadsBeingDeleted := 0
    allThreads := [c3ThreadA, c3ThreadB]
    guiLocked := true
    guiMutexAlive := true
    allThreadsMutexAlive := true
    condAllDeletedAlive := true
    deleteMutexAlive := true }


/-! ## Helper lemmas -/

theorem semWaitGo_maxcount (env : List (WxCondError × Nat)) :
    ∀ s : WxSemaphoreInternal, (semWaitGo s env).1.maxcount = s.maxcount := by
  induction env with
  | nil => intro s; unfold semWaitGo; split_ifs <;> rfl
  | cons p rest ih =>
      intro s
      obtain ⟨e, c⟩ := p
      unfold semWaitGo
      split_ifs with h1 h2
      · exact ih { s with count := c }
      · rfl
      · rfl

theorem semWaitGo_inv (env : List (WxCondError × Nat)) :
    ∀ s : WxSemaphoreInternal, semInv s →
      (∀ p ∈ env, 0 < s.maxcount → p.2 ≤ s.maxcount) →
      semInv (semWaitGo s env).1 := by
  induction env with
  | nil =>
      intro s hs _
      unfold semWaitGo
      split_ifs with h0
      · exact hs
      · intro hm; exact Nat.le_trans (Nat.sub_le _ _) (hs hm)
  | cons p rest ih =>
      intro s hs henv
      obtain ⟨e, c⟩ := p
      unfold semWaitGo
      split_ifs with h1 h2
      · refine ih { s with count := c } ?_ ?_
        · intro hm; exact henv (e, c) (List.mem_cons_self _ _) hm
        · intro q hq hm; exact henv q (List.mem_cons_of_mem _ hq) hm
      · intro hm; exact henv (e, c) (List.mem_cons_self _ _) hm
      · intro hm; exact Nat.le_trans (Nat.sub_le _ _) (hs hm)

theorem semWaitTimeoutGo_inv (ms : Nat) (env : List (Nat × WxCondError × Nat)) :
    ∀ s : WxSemaphoreInternal, semInv s →
      (∀ p ∈ env, 0 < s.maxcount → p.2.2 ≤ s.maxcount) →
      semInv (semWaitTimeoutGo ms s env).1 := by
  induction env with
  | nil =>
      intro s hs _
      unfold semWaitTimeoutGo
      split_ifs with h0
      · exact hs
      · intro hm; exact Nat.le_trans (Nat.sub_le _ _) (hs hm)
  | cons p rest ih =>
      intro s hs henv
      obtain ⟨elapsed, e, c⟩ := p
      unfold semWaitTimeoutGo
      split_ifs with h1 h2
      · exact hs
      · cases e with
        | timeout => intro hm; exact henv (elapsed, .timeout, c) (List.mem_cons_self _ _) hm
        | noError =>
            refine ih { s with count := c } ?_ ?_
            · intro hm; exact henv (elapsed, .noError, c) (List.mem_cons_self _ _) hm
            · intro q hq hm; exact henv q (List.mem_cons_of_mem _ hq) hm
        | miscError => intro hm; exact henv (elapsed, .miscError, c) (List.mem_cons_self _ _) hm
      · intro hm; exact Nat.le_trans (Nat.sub_le _ _) (hs hm)

/-! ## C5 -/

/-- C5: for a Default-kind mutex whose tracked owner is the calling
thread, `Lock()` returns `wxMUTEX_DEAD_LOCK` with the state unchanged and
without reaching the native (possibly blocking) lock call; moreover a
successful `Lock()` on a fresh Default mutex records the caller as the
tracked owner, which is how the state "second Lock before the matching
Unlock" arises in a single-thread Lock/Unlock sequence. -/
theorem mutex_selfLock_returns_deadLock :
    (∀ (m : WxMutexInternal) (cur : Nat), m.mtype = .mutexDefault → cur ≠ 0 →
       m.owningThread = cur → wxMutexLock m cur = (m, .ret .deadLock)) ∧
    (∀ cur : Nat,
       wxMutexLock (mkWxMutex .mutexDefault) cur =
         ({ mtype := .mutexDefault, owningThread := cur, depth := 1, holder := cur },
          .ret .noError)) := by
  constructor
  · intro m cur hty hcur hown
    unfold wxMutexLock
    rw [if_pos ⟨hty, hown ▸ hcur⟩, if_pos hown]
  · intro cur
    unfold wxMutexLock mkWxMutex pthreadMutexLock handleLockResult
    simp

/-- Witness for C5 at a concrete owned mutex. -/
theorem mutex_selfLock_returns_deadLock_witness :
    wxMutexLock { mtype := .mutexDefault, owningThread := 7, depth := 1, holder := 7 } 7 =
      ({ mtype := .mutexDefault, owningThread := 7, depth := 1, holder := 7 },
       .ret .deadLock) :=
  mutex_selfLock_returns_deadLock.1 _ 7 rfl (by decide) rfl

/-! ## C7 -/

/-- C7: `Post()` on a bounded semaphore whose count equals the bound
returns `wxSEMA_OVERFLOW` and leaves the whole state (in particular the
count) unchanged; otherwise it increments the count and signals one
waiter, the overall result reflecting the `Signal()` result. -/
theorem semaphore_post_overflow :
    (∀ (s : WxSemaphoreInternal) (b : Bool), 0 < s.maxcount → s.count = s.maxcount →
        semPost s b = (s, .overflow)) ∧
    (∀ (s : WxSemaphoreInternal) (b : Bool), ¬(0 < s.maxcount ∧ s.count = s.maxcount) →
        (semPost s b).1.count = s.count + 1 ∧
        (semPost s b).2 = (if b then .noError else .miscError)) := by
  constructor
  · intro s b h1 h2
    unfold semPost
    rw [if_pos ⟨h1, h2⟩]
  · intro s b h
    unfold semPost
    rw [if_neg h]
    exact ⟨rfl, rfl⟩

/-- Witness for C7 at a concrete full semaphore and a concrete non-full
one. -/
theorem semaphore_post_overflow_witness :
    semPost { count := 2, maxcount := 2, isOk := true } true =
      ({ count := 2, maxcount := 2, isOk := true }, .overflow) ∧
    (semPost { count := 1, maxcount := 2, isOk := true } true).1.count = 2 :=
  ⟨semaphore_post_overflow.1 _ true (by decide) rfl,
   (semaphore_post_overflow.2 { count := 1, maxcount := 2, isOk := true } true
      (by decide)).1⟩

/-! ## C9 -/

/-- C9: for every argument pair, the constructor's final `IsOk()` equals
the conjunction of the mutex and condition creation results (the
invalid-argument detection having been overwritten), and an invalid pair
leaves `m_count` and `m_maxcount` at their unassigned (indeterminate)
contents. -/
theorem semaphore_ctor_isOk_overwritten :
    ∀ (ic mc : Int) (mOk cOk : Bool) (jc jm : Nat),
      (mkWxSemaphore ic mc mOk cOk jc jm).isOk = (mOk && cOk) ∧
      (semArgsInvalid ic mc = true →
        (mkWxSemaphore ic mc mOk cOk jc jm).count = jc ∧
        (mkWxSemaphore ic mc mOk cOk jc jm).maxcount = jm) := by
  intro ic mc mOk cOk jc jm
  constructor
  · unfold mkWxSemaphore
    split_ifs <;> rfl
  · intro h
    simp only [semArgsInvalid, Bool.or_eq_true, Bool.and_eq_true, decide_eq_true_eq] at h
    unfold mkWxSemaphore
    rw [if_pos h]
    exact ⟨rfl, rfl⟩

/-- Witness for C9: the invalid pair `(5, 3)` with healthy mutex and
condition still reports Ok, and the counters stay at the junk contents. -/
theorem semaphore_ctor_isOk_overwritten_witness :
    (mkWxSemaphore 5 3 true true 7 9).isOk = true ∧
    (mkWxSemaphore 5 3 true true 7 9).count = 7 ∧
    (mkWxSemaphore 5 3 true true 7 9).maxcount = 9 :=
  ⟨(semaphore_ctor_isOk_overwritten 5 3 true true 7 9).1,
   (semaphore_ctor_isOk_overwritten 5 3 true true 7 9).2 (by decide)⟩

/-! ## C2 -/

/-- C2 counterexample: constructed with the argument pair `(5, 3)` —
allowed by the claim's "any (initial, max) arguments" — and indeterminate
member contents `5`/`3`, the semaphore has `maxCount = 3 > 0` but
`count = 5 > maxCount`, so the invariant does not hold immediately after
construction. -/
theorem semaphore_ctor_invalid_breaks_bound :
    ¬ semInv (mkWxSemaphore 5 3 true true 5 3) := by
  decide

/-- C2 amended: after construction with a *valid* argument pair
(`initial ≥ 0`, `max ≥ 0`, `initial ≤ max` when `max > 0`) the bound
invariant holds, and it is preserved by `TryWait()`, `Post()`, `Wait()`
and `WaitTimeout()` — for the two waiting operations, provided the counts
that concurrent operations leave behind during a condition wait respect
the bound themselves. -/
theorem semaphore_bound_invariant_amended :
    (∀ (ic mc : Int) (mOk cOk : Bool) (jc jm : Nat),
        0 ≤ ic → 0 ≤ mc → (0 < mc → ic ≤ mc) →
        semInv (mkWxSemaphore ic mc mOk cOk jc jm)) ∧
    (∀ s : WxSemaphoreInternal, semInv s → semInv (semTryWait s).1) ∧
    (∀ (s : WxSemaphoreInternal) (b : Bool), semInv s → semInv (semPost s b).1) ∧
    (∀ (s : WxSemaphoreInternal) (env : List (WxCondError × Nat)), semInv s →
        (∀ p ∈ env, 0 < s.maxcount → p.2 ≤ s.maxcount) →
        semInv (semWaitGo s env).1) ∧
    (∀ (ms : Nat) (s : WxSemaphoreInternal) (env : List (Nat × WxCondError × Nat)),
        semInv s → (∀ p ∈ env, 0 < s.maxcount → p.2.2 ≤ s.maxcount) →
        semInv (semWaitTimeoutGo ms s env).1) := by
  refine ⟨?_, ?_, ?_, ?_, ?_⟩
  · intro ic mc mOk cOk jc jm h1 h2 h3
    unfold mkWxSemaphore
    have hvalid : ¬ ((ic < 0 ∨ mc < 0) ∨ (0 < mc ∧ mc < ic)) := by
      push_neg
      refine ⟨⟨by omega, by omega⟩, ?_⟩
      intro hmc
      omega
    rw [if_neg hvalid]
    intro hm
    simp only at hm ⊢
    omega
  · intro s hs
    unfold semTryWait
    split_ifs with h0
    · exact hs
    · intro hm; exact Nat.le_trans (Nat.sub_le _ _) (hs hm)
  · intro s b hs
    by_cases h0 : 0 < s.maxcount ∧ s.count = s.maxcount
    · unfold semPost
      rw [if_pos h0]
      exact hs
    · unfold semPost
      rw [if_neg h0]
      intro hm
      simp only at hm ⊢
      have h1 := hs hm
      have h2 : s.count ≠ s.maxcount := fun he => h0 ⟨hm, he⟩
      omega
  · intro s env hs henv
    exact semWaitGo_inv env s hs henv
  · intro ms s env hs henv
    exact semWaitTimeoutGo_inv ms env s hs henv

/-- Witness for the amended C2 at concrete inputs: construction with
`(1, 2)` and a `Wait()` on an initially empty bounded semaphore that gets
posted twice during its condition wait. -/
theorem semaphore_bound_invariant_witness :
    semInv (mkWxSemaphore 1 2 true true 0 0) ∧
    semInv (semWaitGo (mkWxSemaphore 0 2 true true 9 9) [(.noError, 2)]).1 :=
  ⟨semaphore_bound_invariant_amended.1 1 2 true true 0 0 (by decide) (by decide)
      (fun _ => by decide),
   semaphore_bound_invariant_amended.2.2.2.1 _ [(.noError, 2)] (by decide)
      (by
        intro p hp
        simp only [List.mem_singleton] at hp
        subst hp
        intro _
        decide)⟩

/-! ## C6 -/

theorem mutexInv_owner_zero (m : WxMutexInternal) (how : m.owningThread = 0) :
    mutexInv m := by
  intro hne
  exact absurd how hne

theorem mutexInv_depth_zero_owner (m : WxMutexInternal) (h : mutexInv m)
    (hd : m.depth = 0) : m.owningThread = 0 := by
  by_contra hne
  have := (h hne).2
  omega

theorem mutexInv_recursive_owner (m : WxMutexInternal) (h : mutexInv m)
    (hty : m.mtype = .mutexRecursive) : m.owningThread = 0 := by
  by_contra hne
  have h1 := (h hne).1
  rw [hty] at h1
  exact absurd h1 (by simp)

theorem wxMutexLock_inv (m : WxMutexInternal) (cur : Nat) (h : mutexInv m) :
    mutexInv (wxMutexLock m cur).1 := by
  by_cases hd : m.depth = 0
  · have how : m.owningThread = 0 := mutexInv_depth_zero_owner m h hd
    by_cases hty : m.mtype = .mutexDefault
    · simp only [wxMutexLock, pthreadMutexLock, handleLockResult, hd, how, hty]
      simp [mutexInv, hty]
    · simp only [wxMutexLock, pthreadMutexLock, handleLockResult, hd, how, hty]
      try simp
      rw [if_neg hty]
      exact mutexInv_owner_zero _ rfl
  · by_cases hrec : m.mtype = .mutexRecursive ∧ m.holder = cur
    · have how : m.owningThread = 0 := mutexInv_recursive_owner m h hrec.1
      have hty : ¬ m.mtype = .mutexDefault := by
        rw [hrec.1]
        simp
      simp only [wxMutexLock, pthreadMutexLock, handleLockResult, hd, hrec, how, hty]
      try simp
      exact mutexInv_owner_zero _ rfl
    · by_cases hguard : m.mtype = .mutexDefault ∧ m.owningThread ≠ 0
      · by_cases hown : m.owningThread = cur
        · simp only [wxMutexLock, if_pos hguard, if_pos hown]
          exact h
        · simp only [wxMutexLock, pthreadMutexLock, hd, hrec, if_pos hguard,
            if_neg hown, if_neg hd, if_neg hrec]
          exact h
      · simp only [wxMutexLock, pthreadMutexLock, hd, hrec, if_neg hguard,
          if_neg hd, if_neg hrec]
        exact h

theorem wxMutexTryLock_inv (m : WxMutexInternal) (cur : Nat) (h : mutexInv m) :
    mutexInv (wxMutexTryLock m cur).1 := by
  by_cases hd : m.depth = 0
  · by_cases hty : m.mtype = .mutexDefault
    · simp only [wxMutexTryLock, pthreadMutexTryLock, hd, hty]
      simp [mutexInv, hty]
    · simp only [wxMutexTryLock, pthreadMutexTryLock, hd, hty]
      simp
      rw [if_neg hty]
      exact mutexInv_owner_zero _ (mutexInv_depth_zero_owner m h hd)
  · by_cases hrec : m.mtype = .mutexRecursive ∧ m.holder = cur
    · have how : m.owningThread = 0 := mutexInv_recursive_owner m h hrec.1
      have hty : ¬ m.mtype = .mutexDefault := by
        rw [hrec.1]
        simp
      simp only [wxMutexTryLock, pthreadMutexTryLock, hd, hrec]
      try simp
      exact mutexInv_owner_zero _ how
    · simp only [wxMutexTryLock, pthreadMutexTryLock, hd, hrec]
      simp
      exact h

theorem wxMutexLockTimeout_inv (m : WxMutexInternal) (cur ms : Nat) (h : mutexInv m) :
    mutexInv (wxMutexLockTimeout m cur ms).1 := by
  by_cases hd : m.depth = 0
  · by_cases hty : m.mtype = .mutexDefault
    · simp only [wxMutexLockTimeout, pthreadMutexTimedLock, handleLockResult, hd, hty]
      simp [mutexInv, hty]
    · simp only [wxMutexLockTimeout, pthreadMutexTimedLock, handleLockResult, hd, hty]
      simp
      rw [if_neg hty]
      exact mutexInv_owner_zero _ (mutexInv_depth_zero_owner m h hd)
  · by_cases hrec : m.mtype = .mutexRecursive ∧ m.holder = cur
    · have how : m.owningThread = 0 := mutexInv_recursive_owner m h hrec.1
      have hty : ¬ m.mtype = .mutexDefault := by
        rw [hrec.1]
        simp
      simp only [wxMutexLockTimeout, pthreadMutexTimedLock, handleLockResult, hd, hrec]
      try simp
      exact mutexInv_owner_zero _ how
    · simp only [wxMutexLockTimeout, pthreadMutexTimedLock, handleLockResult, hd, hrec]
      simp
      exact h

theorem wxMutexUnlock_owner (m : WxMutexInternal) (cur : Nat) :
    (wxMutexUnlock m cur).1.owningThread = 0 := by
  simp only [wxMutexUnlock, pthreadMutexUnlockNative]
  split_ifs <;> rfl

theorem wxMutexUnlock_inv (m : WxMutexInternal) (cur : Nat) :
    mutexInv (wxMutexUnlock m cur).1 := by
  intro hne
  exact absurd (wxMutexUnlock_owner m cur) hne

theorem mutexStep_inv (m : WxMutexInternal) (op : MutexOp) (h : mutexInv m) :
    mutexInv (mutexStep m op) := by
  cases op with
  | lockOp cur => exact wxMutexLock_inv m cur h
  | lockTimeoutOp cur ms => exact wxMutexLockTimeout_inv m cur ms h
  | tryLockOp cur => exact wxMutexTryLock_inv m cur h
  | unlockOp cur => exact wxMutexUnlock_inv m cur

theorem mutexRun_inv (ops : List MutexOp) :
    ∀ m : WxMutexInternal, mutexInv m → mutexInv (mutexRun m ops) := by
  induction ops with
  | nil => intro m h; exact h
  | cons op rest ih =>
      intro m h
      exact ih (mutexStep m op) (mutexStep_inv m op h)

/-- C6: `Unlock()` clears the tracked owner before reporting the result on
every return path — stated over every errno the native unlock could
return, covering the `wxMUTEX_UNLOCKED` (not-owned) and
`wxMUTEX_MISC_ERROR` arms — and also under the sequential native-unlock
model; and across every sequence of mutex operations the tracked owner is
set only while a Default-kind mutex is natively locked. -/
theorem mutex_unlock_clears_owner :
    (∀ (m : WxMutexInternal) (err : Errno), (wxMutexUnlockErr m err).1.owningThread = 0) ∧
    (∀ (m : WxMutexInternal) (cur : Nat), (wxMutexUnlock m cur).1.owningThread = 0) ∧
    (∀ (m : WxMutexInternal) (ops : List MutexOp),
        mutexInv m → mutexInv (mutexRun m ops)) := by
  refine ⟨?_, ?_, ?_⟩
  · intro m err; rfl
  · intro m cur; exact wxMutexUnlock_owner m cur
  · intro m ops h; exact mutexRun_inv ops m h

/-- Witness for C6: a concrete unlock whose native call fails with
`EINVAL` (the misc-error path) still clears the owner, and the invariant
holds along a concrete lock/unlock/relock history of a fresh Default
mutex. -/
theorem mutex_unlock_clears_owner_witness :
    (wxMutexUnlockErr
        { mtype := .mutexDefault, owningThread := 3, depth := 1, holder := 3 }
        .eINVAL).1.owningThread = 0 ∧
    mutexInv (mutexRun (mkWxMutex .mutexDefault)
        [.lockOp 7, .unlockOp 7, .lockOp 7]) :=
  ⟨mutex_unlock_clears_owner.1 _ .eINVAL,
   mutex_unlock_clears_owner.2.2 _ [.lockOp 7, .unlockOp 7, .lockOp 7] (by decide)⟩

/-! ## C4 -/

theorem waitSeq_joined (t : ThreadSt) (osRet : Int) (h : t.shouldBeJoined = true) :
    ∀ n : Nat, 1 ≤ n →
      (waitSeq t osRet n).shouldBeJoined = false ∧
      (waitSeq t osRet n).exitcode = osRet ∧
      (waitSeq t osRet n).osJoinCalls = t.osJoinCalls + 1 := by
  intro n hn
  induction n with
  | zero => omega
  | succ k ih =>
      by_cases hk : 1 ≤ k
      · obtain ⟨h1, h2, h3⟩ := ih hk
        have hstep : waitSeq t osRet (k + 1) = waitSeq t osRet k := by
          show (wxThreadWait (waitSeq t osRet k) osRet).1 = _
          unfold wxThreadWait internalWait
          rw [h1]
          simp
        rw [hstep]
        exact ⟨h1, h2, h3⟩
      · have hk0 : k = 0 := by omega
        subst hk0
        have hstep : waitSeq t osRet 1 = internalWait t osRet := by
          show (wxThreadWait (waitSeq t osRet 0) osRet).1 = _
          unfold waitSeq wxThreadWait
          rfl
        rw [hstep]
        unfold internalWait
        rw [h]
        simp

/-- C4: on a thread whose `m_shouldBeJoined` flag is set (a Joinable
thread not yet joined), any sequence of `n ≥ 1` `Wait()` calls performs
the real `pthread_join` exactly once (the join counter rises by exactly
one), leaves the flag cleared, and every one of the `n` calls — the first
included — returns the one OS exit value captured by that single join. -/
theorem thread_join_exactly_once :
    ∀ (t : ThreadSt) (osRet : Int) (n : Nat), t.shouldBeJoined = true → 1 ≤ n →
      (waitSeq t osRet n).osJoinCalls = t.osJoinCalls + 1 ∧
      (waitSeq t osRet n).shouldBeJoined = false ∧
      (∀ k : Nat, 1 ≤ k → k ≤ n →
        (wxThreadWait (waitSeq t osRet (k - 1)) osRet).2 = osRet) := by
  intro t osRet n h hn
  refine ⟨(waitSeq_joined t osRet h n hn).2.2, (waitSeq_joined t osRet h n hn).1, ?_⟩
  intro k hk1 _
  by_cases hk : k = 1
  · subst hk
    show (wxThreadWait (waitSeq t osRet 0) osRet).2 = osRet
    unfold waitSeq wxThreadWait internalWait
    rw [h]
    simp
  · have hk2 : 1 ≤ k - 1 := by omega
    obtain ⟨h1, h2, _⟩ := waitSeq_joined t osRet h (k - 1) hk2
    unfold wxThreadWait internalWait
    rw [h1]
    simp [h2]

/-- Witness for C4: three `Wait()` calls on a fresh joinable thread whose
OS thread exits with `42` — one real join, and the third call still
returns `42`. -/
theorem thread_join_exactly_once_witness :
    (waitSeq (mkWxThread .joinable) 42 3).osJoinCalls = (mkWxThread .joinable).osJoinCalls + 1 ∧
    (wxThreadWait (waitSeq (mkWxThread .joinable) 42 2) 42).2 = 42 :=
  ⟨(thread_join_exactly_once (mkWxThread .joinable) 42 3 rfl (by decide)).1,
   (thread_join_exactly_once (mkWxThread .joinable) 42 3 rfl (by decide)).2.2 3
      (by decide) (Nat.le_refl 3)⟩

/-! ## C10 -/

theorem wxThreadRun_created (t : ThreadSt) (ok : Bool) (h : t.created = true) :
    wxThreadRun t ok = (signalRun { t with state := .stateRunning }, .noError) := by
  unfold wxThreadRun
  simp [h, internalRun]

theorem runSeq_created (t : ThreadSt) (ok : Bool) (h : t.created = true) :
    ∀ n : Nat, (runSeq t ok n).created = true := by
  intro n
  induction n with
  | zero => exact h
  | succ k ih =>
      show (wxThreadRun (runSeq t ok k) ok).1.created = true
      rw [wxThreadRun_created _ ok ih]
      simpa [signalRun] using ih

/-- C10: `Run()` on a thread whose OS thread was already created skips
creation entirely, returns `wxTHREAD_NO_ERROR` whatever the current
state, unconditionally sets the state to `STATE_RUNNING`, and invokes
`Post()` on the start-gate; over `n` consecutive `Run()` calls the
start-gate `Post()` is invoked exactly `n` times. -/
theorem thread_run_created_always_ok :
    (∀ (t : ThreadSt) (ok : Bool), t.created = true →
        (wxThreadRun t ok).2 = .noError ∧
        (wxThreadRun t ok).1.state = .stateRunning ∧
        (wxThreadRun t ok).1.runPostCalls = t.runPostCalls + 1 ∧
        (wxThreadRun t ok).1.semRun = (semPost t.semRun true).1) ∧
    (∀ (t : ThreadSt) (ok : Bool) (n : Nat), t.created = true →
        (runSeq t ok n).runPostCalls = t.runPostCalls + n ∧
        (0 < n → (runSeq t ok n).state = .stateRunning)) := by
  constructor
  · intro t ok h
    rw [wxThreadRun_created t ok h]
    simp [signalRun]
  · intro t ok n h
    induction n with
    | zero => exact ⟨rfl, fun h0 => absurd h0 (by omega)⟩
    | succ k ih =>
        have hc := runSeq_created t ok h k
        obtain ⟨ih1, _⟩ := ih
        constructor
        · show (wxThreadRun (runSeq t ok k) ok).1.runPostCalls = _
          rw [wxThreadRun_created _ ok hc]
          simp [signalRun]
          omega
        · intro _
          show (wxThreadRun (runSeq t ok k) ok).1.state = _
          rw [wxThreadRun_created _ ok hc]
          simp [signalRun]

/-- Witness for C10 at a concrete already-created thread in state
`STATE_EXITED`. -/
theorem thread_run_created_always_ok_witness :
    (wxThreadRun { mkWxThread .joinable with created := true, state := .stateExited } true).2 =
      .noError ∧
    (wxThreadRun { mkWxThread .joinable with created := true, state := .stateExited } true).1.state =
      .stateRunning ∧
    (runSeq { mkWxThread .joinable with created := true, state := .stateExited } true 3).runPostCalls = 3 :=
  ⟨(thread_run_created_always_ok.1 _ true rfl).1,
   (thread_run_created_always_ok.1 _ true rfl).2.1,
   (thread_run_created_always_ok.2 _ true 3 rfl).1⟩

/-! ## C8 -/

/-- C8: `Delete()` on a thread still in `STATE_NEW` sets the cancellation
flag, invokes `Post()` on the start-gate (raising an empty gate's count to
`1`, which is what releases the entry wrapper), leaves the state at
`STATE_NEW`, performs no join, and returns `wxTHREAD_MISC_ERROR`; the
entry wrapper, released on the resulting state, then never executes user
code. -/
theorem thread_delete_new_misc_error :
    ∀ (t : ThreadSt) (osRet u : Int), t.state = .stateNew →
      (wxThreadDelete t osRet).2.1 = .miscError ∧
      (wxThreadDelete t osRet).1.cancelled = true ∧
      (wxThreadDelete t osRet).1.state = .stateNew ∧
      (wxThreadDelete t osRet).1.runPostCalls = t.runPostCalls + 1 ∧
      (wxThreadDelete t osRet).1.osJoinCalls = t.osJoinCalls ∧
      (t.semRun.count = 0 → (wxThreadDelete t osRet).1.semRun.count = 1) ∧
      (pthreadStart (wxThreadDelete t osRet).1 u).ranUserCode = false := by
  intro t osRet u h
  have hred : wxThreadDelete t osRet =
      (signalRun { t with cancelled := true }, .miscError, none) := by
    unfold wxThreadDelete
    rw [h]
    rfl
  rw [hred]
  refine ⟨rfl, rfl, ?_, rfl, rfl, ?_, ?_⟩
  · simp [signalRun, h]
  · intro hc
    simp only [signalRun]
    have hne : ¬(0 < t.semRun.maxcount ∧ t.semRun.count = t.semRun.maxcount) := by
      rw [hc]
      omega
    unfold semPost
    rw [if_neg hne]
    simp [hc]
  · unfold pthreadStart
    rw [if_pos ⟨by simp [signalRun, h], by simp [signalRun]⟩]

/-- Witness for C8 at a fresh joinable thread that was never run. -/
theorem thread_delete_new_misc_error_witness :
    (wxThreadDelete (mkWxThread .joinable) 0).2.1 = .miscError ∧
    (wxThreadDelete (mkWxThread .joinable) 0).1.semRun.count = 1 ∧
    (pthreadStart (wxThreadDelete (mkWxThread .joinable) 0).1 5).ranUserCode = false :=
  ⟨(thread_delete_new_misc_error (mkWxThread .joinable) 0 5 rfl).1,
   (thread_delete_new_misc_error (mkWxThread .joinable) 0 5 rfl).2.2.2.2.2.1 (by decide),
   (thread_delete_new_misc_error (mkWxThread .joinable) 0 5 rfl).2.2.2.2.2.2⟩

/-! ## C1 -/

/-- C1: evaluating the entry wrapper on a thread that was cancelled while
still in `STATE_NEW`: user code is skipped and the wrapper's return value
is the cancelled sentinel in both cases, and a Detached thread's object is
destroyed; but for a Joinable thread the object is destroyed as well
(`thread = none` — the source's unconditional `delete thread`, flagged by
its own FIXME), instead of being left alive holding the sentinel exit
code for the eventual joiner. -/
theorem pthreadStart_cancelledNew_deletes_joinable :
    pthreadStart { mkWxThread .joinable with cancelled := true } 99 =
      { thread := none, retVal := EXITCODE_CANCELLED, ranUserCode := false } ∧
    ({ mkWxThread .joinable with cancelled := true } : ThreadSt).isDetached = false ∧
    pthreadStart { mkWxThread .detached with cancelled := true } 99 =
      { thread := none, retVal := EXITCODE_CANCELLED, ranUserCode := false } := by
  decide

/-! ## C3 -/

/-- C3 (code bug): at shutdown with no pending asynchronous deletions and
two joinable never-run threads registered, the barrier does not block,
samples `count = 2`, and issues two `Delete()` calls — but both hit thread
A (the first entry, then the same object as left by the first call), the
registered thread B never receives a `Delete()`, and both threads are
still registered after the loop, while the claim (like the loop's own
comment "Delete calls the destructor which removes the current entry")
requires every registered thread to be deleted and removed until none
remain.  Each `Delete()` on the joinable New-state thread returns
`wxTHREAD_MISC_ERROR` and leaves the object alive and registered. -/
theorem module_onExit_joinable_threads_stay_registered :
    (wxThreadModuleOnExit c3Module 0).waitedForPending = false ∧
    (wxThreadModuleOnExit c3Module 0).deleteCalls =
      [c3ThreadA, (wxThreadDelete c3ThreadA 0).1] ∧
    c3ThreadB ∉ (wxThreadModuleOnExit c3Module 0).deleteCalls ∧
    (wxThreadModuleOnExit c3Module 0).final.allThreads.length = 2 ∧
    (wxThreadModuleOnExit c3Module 0).final.allThreads ≠ [] ∧
    (wxThreadDelete c3ThreadA 0).2.1 = .miscError ∧
    (wxThreadModuleOnExit c3Module 0).final.guiLocked = false := by
  decide
